import Mathlib

/-!
# Verification of the API gateway (`api_gateway/gateway/app.py`)

Shallow embedding of the gateway's rate limiter, cache-key derivation,
load balancing, request forwarding and dispatcher pipeline, together with
theorems settling the specification claims about them.

Conventions of the embedding:
* Unix timestamps are `Int` (Python `int(time.time())`; Python integer
  subtraction can go negative, so `Nat` would be unfaithful).
* `random.choice(lst)` is modelled by an arbitrary index `choice : Nat`
  taken modulo the list length: every possible outcome of the random draw
  corresponds to some value of `choice`.
* Python dictionaries are association lists updated by replace-or-append;
  Werkzeug/requests header containers are case-insensitive, plain Python
  dicts are case-sensitive, so there are two update functions.
* The value returned by a Flask view is either a bare `Response` or a
  `(Response, status)` tuple; this dynamic typing is modelled by `PyResult`.
  An uncaught Python exception is `Outcome.error` (Flask turns it into a
  500 response).
-/

set_option maxRecDepth 100000

namespace ApiGateway

/-! ## Configuration (`Config` in `app.py`) -/

def API_KEY : String := "test-api-key"

def CACHE_ENABLED : Bool := true

def CACHE_TIMEOUT : Int := 300

def RATE_LIMIT_ENABLED : Bool := true

def RATE_LIMIT_WINDOW : Int := 60

def RATE_LIMIT_MAX_REQUESTS : Nat := 100

def SERVICES : List (String × List String) :=
  [("user_service", ["http://localhost:8001", "http://localhost:8002"]),
   ("product_service", ["http://localhost:8011", "http://localhost:8012"]),
   ("order_service", ["http://localhost:8021", "http://localhost:8022"])]

/-! ## Generic association-list helpers (Python dict / header containers) -/

/-- ASCII-lowercase a string (how case-insensitive header containers compare names). -/
def lowerAscii (s : String) : String := String.mk (s.toList.map Char.toLower)

/-- `d.get(k)` on a plain (case-sensitive) Python dict, first match. -/
def lookupAssoc {α : Type} (d : List (String × α)) (k : String) : Option α :=
  (d.find? (fun p => p.1 == k)).map (·.2)

/-- `d[k] = v` on a plain Python dict: replace the first binding of `k`, else append. -/
def dictSetA {α : Type} : List (String × α) → String → α → List (String × α)
  | [], k, v => [(k, v)]
  | p :: ps, k, v => if p.1 = k then (k, v) :: ps else p :: dictSetA ps k v

/-- Case-insensitive header lookup (`request.headers.get(name)` in Flask,
`response.headers.get(name)` / `name in response.headers` in requests):
first header line whose name matches case-insensitively. -/
def headerGet (name : String) (hs : List (String × String)) : Option String :=
  (hs.find? (fun p => lowerAscii p.1 == lowerAscii name)).map (·.2)

/-- `headers[k] = v` on a case-insensitive header container (Werkzeug):
replace the first case-insensitive match, else append. -/
def dictSetCI : List (String × String) → String → String → List (String × String)
  | [], k, v => [(k, v)]
  | p :: ps, k, v =>
    if lowerAscii p.1 = lowerAscii k then (k, v) :: ps else p :: dictSetCI ps k v

/-! ## Rate limiter (`rate_limit` decorator, lines 82-142) -/

/-- Line 99: `[ts for ts in rate_limits[client_id] if ts > window_start]`
with `window_start = now - Config.RATE_LIMIT_WINDOW`. -/
def purgeWindow (now : Int) (window : List Int) : List Int :=
  window.filter (fun ts => decide (now - RATE_LIMIT_WINDOW < ts))

/-- Python's `min` on a list (the rejection path only evaluates it on a
non-empty list; the `0` default is never reached there). -/
def listMin : List Int → Int
  | [] => 0
  | t :: ts => ts.foldl min t

/-- Outcome of one rate-limit check for one client window. -/
structure RateResult where
  allowed : Bool
  /-- `request_count`: size of the window after the purge, before any append. -/
  count : Nat
  /-- `retry_after` of the 429 body (meaningful only when rejected). -/
  retryAfter : Int
  /-- The client's stored window after the call. -/
  newWindow : List Int
  deriving Repr, DecidableEq

/-- Lines 94-115 of `rate_limit`, restricted to a single client's window:
purge, count, reject with 429 data if `count >= RATE_LIMIT_MAX_REQUESTS`,
else record `now`.  An unseen client is the `window = []` case. -/
def rateLimitCheck (now : Int) (window : List Int) : RateResult :=
  if RATE_LIMIT_MAX_REQUESTS ≤ (purgeWindow now window).length then
    { allowed := false
      count := (purgeWindow now window).length
      retryAfter := RATE_LIMIT_WINDOW - (now - listMin (purgeWindow now window))
      newWindow := purgeWindow now window }
  else
    { allowed := true
      count := (purgeWindow now window).length
      retryAfter := 0
      newWindow := purgeWindow now window ++ [now] }

/-- Run a sequence of requests (with their timestamps) from one client
through the rate limiter, threading the stored window; returns the
per-request results and the final stored window. -/
def runRequests : List Int → List Int → List RateResult × List Int
  | [], w => ([], w)
  | t :: ts, w =>
    (rateLimitCheck t w :: (runRequests ts (rateLimitCheck t w).newWindow).1,
     (runRequests ts (rateLimitCheck t w).newWindow).2)

/-! ## MD5 (`hashlib.md5(...).hexdigest()` used by `get_cache_key`)

Faithful RFC 1321 implementation over `Nat` with explicit `% 2^32`;
validated below against the standard test vectors. -/

def md5Mod : Nat := 4294967296

def add32 (a b : Nat) : Nat := (a + b) % md5Mod

def not32 (x : Nat) : Nat := x ^^^ (md5Mod - 1)

def rotl32 (x s : Nat) : Nat := ((x <<< s) % md5Mod) ||| (x >>> (32 - s))

def md5K : List Nat :=
  [0xd76aa478, 0xe8c7b756, 0x242070db, 0xc1bdceee,
   0xf57c0faf, 0x4787c62a, 0xa8304613, 0xfd469501,
   0x698098d8, 0x8b44f7af, 0xffff5bb1, 0x895cd7be,
   0x6b901122, 0xfd987193, 0xa679438e, 0x49b40821,
   0xf61e2562, 0xc040b340, 0x265e5a51, 0xe9b6c7aa,
   0xd62f105d, 0x02441453, 0xd8a1e681, 0xe7d3fbc8,
   0x21e1cde6, 0xc33707d6, 0xf4d50d87, 0x455a14ed,
   0xa9e3e905, 0xfcefa3f8, 0x676f02d9, 0x8d2a4c8a,
   0xfffa3942, 0x8771f681, 0x6d9d6122, 0xfde5380c,
   0xa4beea44, 0x4bdecfa9, 0xf6bb4b60, 0xbebfbc70,
   0x289b7ec6, 0xeaa127fa, 0xd4ef3085, 0x04881d05,
   0xd9d4d039, 0xe6db99e5, 0x1fa27cf8, 0xc4ac5665,
   0xf4292244, 0x432aff97, 0xab9423a7, 0xfc93a039,
   0x655b59c3, 0x8f0ccc92, 0xffeff47d, 0x85845dd1,
   0x6fa87e4f, 0xfe2ce6e0, 0xa3014314, 0x4e0811a1,
   0xf7537e82, 0xbd3af235, 0x2ad7d2bb, 0xeb86d391]

def md5S : List Nat :=
  [7, 12, 17, 22, 7, 12, 17, 22, 7, 12, 17, 22, 7, 12, 17, 22,
   5, 9, 14, 20, 5, 9, 14, 20, 5, 9, 14, 20, 5, 9, 14, 20,
   4, 11, 16, 23, 4, 11, 16, 23, 4, 11, 16, 23, 4, 11, 16, 23,
   6, 10, 15, 21, 6, 10, 15, 21, 6, 10, 15, 21, 6, 10, 15, 21]

def md5F (i b c d : Nat) : Nat :=
  if i < 16 then (b &&& c) ||| (not32 b &&& d)
  else if i < 32 then (d &&& b) ||| (not32 d &&& c)
  else if i < 48 then b ^^^ c ^^^ d
  else c ^^^ (b ||| not32 d)

def md5G (i : Nat) : Nat :=
  if i < 16 then i
  else if i < 32 then (5 * i + 1) % 16
  else if i < 48 then (3 * i + 5) % 16
  else (7 * i) % 16

structure MD5State where
  a : Nat
  b : Nat
  c : Nat
  d : Nat
  deriving Repr, DecidableEq

def md5Step (m : List Nat) (st : MD5State) (i : Nat) : MD5State :=
  let f := add32 (add32 (add32 (md5F i st.b st.c st.d) st.a) (md5K.getD i 0)) (m.getD (md5G i) 0)
  ⟨st.d, add32 st.b (rotl32 f (md5S.getD i 0)), st.b, st.c⟩

def md5Block (st : MD5State) (m : List Nat) : MD5State :=
  let r := (List.range 64).foldl (md5Step m) st
  ⟨add32 st.a r.a, add32 st.b r.b, add32 st.c r.c, add32 st.d r.d⟩

/-- `count` bytes of `n`, little-endian. -/
def leBytes (count n : Nat) : List Nat :=
  (List.range count).map (fun i => (n >>> (8 * i)) % 256)

/-- MD5 padding: `0x80`, zeros to 56 mod 64, then the 64-bit LE bit length. -/
def md5Pad (msg : List Nat) : List Nat :=
  msg ++ [128] ++ List.replicate ((119 - msg.length % 64) % 64) 0
      ++ leBytes 8 ((8 * msg.length) % 2 ^ 64)

/-- Split a (padded) byte list into 64-byte blocks. -/
def chunksOf64 (msg : List Nat) : List (List Nat) :=
  (List.range ((msg.length + 63) / 64)).map (fun i => (msg.drop (64 * i)).take 64)

/-- A 64-byte block as 16 little-endian 32-bit words. -/
def bytesToWords (block : List Nat) : List Nat :=
  (List.range 16).map (fun j =>
    block.getD (4 * j) 0 + 256 * block.getD (4 * j + 1) 0
      + 65536 * block.getD (4 * j + 2) 0 + 16777216 * block.getD (4 * j + 3) 0)

def md5Init : MD5State := ⟨0x67452301, 0xefcdab89, 0x98badcfe, 0x10325476⟩

def hexDigits : List Char := "0123456789abcdef".toList

def byteHex (b : Nat) : List Char :=
  [hexDigits.getD (b / 16) '0', hexDigits.getD (b % 16) '0']

/-- `hashlib.md5(bytes(msg)).hexdigest()`. -/
def md5Hex (msg : List Nat) : String :=
  let st := (chunksOf64 (md5Pad msg)).foldl (fun s blk => md5Block s (bytesToWords blk)) md5Init
  String.mk (([st.a, st.b, st.c, st.d].map (fun w => ((leBytes 4 w).map byteHex).flatten)).flatten)

/-! ## UTF-8 encoding and `json.dumps` of a list of strings -/

def utf8Char (c : Char) : List Nat :=
  let n := c.toNat
  if n < 128 then [n]
  else if n < 2048 then [192 + n / 64, 128 + n % 64]
  else if n < 65536 then [224 + n / 4096, 128 + (n / 64) % 64, 128 + n % 64]
  else [240 + n / 262144, 128 + (n / 4096) % 64, 128 + (n / 64) % 64, 128 + n % 64]

def utf8Bytes (s : String) : List Nat := (s.toList.map utf8Char).flatten

/-- `\uXXXX` escape, lowercase hex. -/
def uEscape (n : Nat) : List Char :=
  ['\\', 'u', hexDigits.getD (n / 4096 % 16) '0', hexDigits.getD (n / 256 % 16) '0',
   hexDigits.getD (n / 16 % 16) '0', hexDigits.getD (n % 16) '0']

/-- One character of a JSON string under `json.dumps` defaults (`ensure_ascii=True`). -/
def jsonEscapeChar (c : Char) : List Char :=
  if c = '"' then ['\\', '"']
  else if c = '\\' then ['\\', '\\']
  else if c.toNat = 8 then ['\\', 'b']
  else if c = '\t' then ['\\', 't']
  else if c = '\n' then ['\\', 'n']
  else if c.toNat = 12 then ['\\', 'f']
  else if c = '\r' then ['\\', 'r']
  else if c.toNat < 32 then uEscape c.toNat
  else if c.toNat < 128 then [c]
  else if c.toNat < 65536 then uEscape c.toNat
  else uEscape (55296 + (c.toNat - 65536) / 1024) ++ uEscape (56320 + (c.toNat - 65536) % 1024)

/-- `json.dumps(l)` for a list of strings, with the default `", "` separator. -/
def jsonDumpsStrList (l : List String) : String :=
  "[" ++ String.intercalate ", "
      (l.map (fun s => "\"" ++ String.mk ((s.toList.map jsonEscapeChar).flatten) ++ "\"")) ++ "]"

/-! ## Cache-key derivation (`get_cache_key`, lines 146-159) -/

/-- `get_cache_key(service, path, query_string, headers=None)`.
`reqHeaders` is the inbound request's header list (`request.headers`);
Python appends `f"{header}:{value}"` only when the value is truthy,
i.e. present and non-empty. -/
def get_cache_key (service path query_string : String)
    (headerNames : Option (List String)) (reqHeaders : List (String × String)) : String :=
  let base := [service, path, query_string]
  let parts :=
    match headerNames with
    | none => base
    | some hs =>
      hs.foldl (fun acc h =>
        match headerGet h reqHeaders with
        | some v => if v = "" then acc else acc ++ [h ++ ":" ++ v]
        | none => acc) base
  "apigw:" ++ md5Hex (utf8Bytes (jsonDumpsStrList parts))

/-! ## Requests, responses and the Python-typing model -/

/-- The parts of the inbound Flask `request` the gateway reads. -/
structure Request where
  method : String
  headers : List (String × String)
  queryString : String
  remoteAddr : String
  deriving Repr, DecidableEq

/-- Bodies the gateway constructs: `jsonify` error envelopes, the 429 body,
`jsonify` of a cached parsed payload, and raw upstream content. -/
inductive Body where
  | envelope (error : String) (message : Option String)
  | rateLimited (limit : Nat) (window retryAfter : Int)
  | jsonVal (v : String)
  | raw (content : String)
  deriving Repr, DecidableEq

/-- A Flask/Werkzeug `Response`. -/
structure GwResponse where
  body : Body
  status : Nat
  headers : List (String × String)
  deriving Repr, DecidableEq

/-- `jsonify(...)`: a `Response` with default status 200. -/
def jsonify (b : Body) : GwResponse := ⟨b, 200, []⟩

/-- `response.data`; this code only reads it on forwarded upstream
responses, whose body is `Body.raw`. -/
def GwResponse.dataStr (r : GwResponse) : String :=
  match r.body with
  | .raw c => c
  | _ => ""

/-- A Flask view's return value: a bare `Response` or a `(Response, status)`
tuple.  (In `app.py` the first component of every tuple is a `jsonify`
result, i.e. a `Response`.) -/
inductive PyResult where
  | resp (r : GwResponse)
  | pair (r : GwResponse) (code : Nat)
  deriving Repr, DecidableEq

/-- A handler either returns a value or raises an uncaught Python
exception (which Flask converts to a 500 response). -/
inductive Outcome where
  | ok (res : PyResult)
  | error
  deriving Repr, DecidableEq

/-- Result of `requests.request(...)`: an upstream response, or a raised
`requests.RequestException`. -/
inductive UpstreamResult where
  | ok (status : Nat) (headers : List (String × String)) (content : String)
  | exn (msg : String)
  deriving Repr, DecidableEq

/-- Per-request environment: the clock, the `random.choice` draw (as an
arbitrary index), the upstream network (`requests.request`, keyed on
method, url and sent headers) and the JSON parser (`json.loads`, `none`
meaning `JSONDecodeError`/`TypeError`; a parsed payload is represented
opaquely by a string). -/
structure GatewayEnv where
  now : Int
  choice : Nat
  upstream : String → String → List (String × String) → UpstreamResult
  parse : String → Option String

/-- One entry of the `SimpleCache`: stored value and absolute expiry time. -/
structure CacheEntry where
  value : String
  expires : Int
  deriving Repr, DecidableEq

/-- The gateway's mutable module state: `rate_limits` and `cache`. -/
structure GatewayState where
  rateLimits : List (String × List Int)
  cache : List (String × CacheEntry)
  deriving Repr, DecidableEq

/-- `cache.get(key)` of `SimpleCache`: a live entry or nothing. -/
def cache_get (now : Int) (cache : List (String × CacheEntry)) (key : String) : Option String :=
  match lookupAssoc cache key with
  | some e => if now < e.expires then some e.value else none
  | none => none

/-- `cache.set(key, v, timeout)` of `SimpleCache`. -/
def cache_set (now : Int) (cache : List (String × CacheEntry)) (key v : String)
    (timeout : Int) : List (String × CacheEntry) :=
  dictSetA cache key ⟨v, now + timeout⟩

/-! ## Load balancing (`get_service_url`, lines 161-173) -/

/-- `get_service_url(service)`: `None` for an unknown service or an empty
endpoint list, otherwise `random.choice(service_urls)` — modelled as the
endpoint at an arbitrary index `choice % len`.  The literal code consults
no health state whatsoever. -/
def get_service_url (services : List (String × List String)) (choice : Nat)
    (service : String) : Option String :=
  match lookupAssoc services service with
  | none => none
  | some service_urls =>
    if service_urls = [] then none
    else service_urls.get? (choice % service_urls.length)

/-- Health assignment of the spec's load-balancing scenario: endpoint A
(`http://localhost:8001`) marked healthy, endpoint B (`http://localhost:8002`)
marked unhealthy.  The gateway code itself tracks no health state; this
definition only encodes the scenario's marking. -/
def scenarioHealth (url : String) : Bool := url == "http://localhost:8001"

/-! ## Request forwarding (`forward_request`, lines 175-224) -/

/-- `path.lstrip('/')`. -/
def lstripSlash (s : String) : String :=
  String.mk (s.toList.dropWhile (fun c => c = '/'))

/-- Lines 185-193: copy each allow-listed inbound header with a truthy
value into a fresh (case-sensitive) dict, then set `X-Gateway-Source`. -/
def buildRequestHeaders (allowNames : List String) (inbound : List (String × String)) :
    List (String × String) :=
  let base := allowNames.foldl (fun acc h =>
    match headerGet h inbound with
    | some v => if v = "" then acc else dictSetA acc h v
    | none => acc) []
  dictSetA base "X-Gateway-Source" "api-gateway"

/-- Line 213: the response-header allow-list. -/
def respHeaderNames : List String :=
  ["Content-Type", "Content-Length", "Content-Language", "ETag"]

/-- Lines 206-215: the gateway `Response`'s headers — the `content_type`
constructor argument (upstream `Content-Type`, default `application/json`)
followed by the copies of the allow-listed upstream headers. -/
def upstreamResponseHeaders (uh : List (String × String)) : List (String × String) :=
  respHeaderNames.foldl (fun acc h =>
    match headerGet h uh with
    | some v => dictSetCI acc h v
    | none => acc) [("Content-Type", (headerGet "Content-Type" uh).getD "application/json")]

/-- `forward_request(service, path, method, headers, ...)`.  On success it
builds a `Response` from the upstream content with the allow-listed
upstream headers copied; on `RequestException` it returns the 503 tuple;
with no service URL, the 404 tuple. -/
def forward_request (env : GatewayEnv) (service path method : String)
    (headerNames : Option (List String)) (req : Request) : PyResult :=
  match get_service_url SERVICES env.choice service with
  | none => .pair (jsonify (.envelope ("Service " ++ service ++ " not found") none)) 404
  | some service_url =>
    let url := service_url ++ "/" ++ lstripSlash path
    let request_headers := buildRequestHeaders (headerNames.getD []) req.headers
    match env.upstream method url request_headers with
    | .ok status uh content =>
      .resp { body := .raw content, status := status, headers := upstreamResponseHeaders uh }
    | .exn msg => .pair (jsonify (.envelope "Service unavailable" (some msg))) 503

/-! ## Decorators (`require_api_key`, `rate_limit`) and the dispatcher -/

/-- The `require_api_key` guard: `not api_key or api_key != Config.API_KEY`
(a missing or empty or wrong key fails). -/
def authPasses (req : Request) : Bool :=
  match headerGet "X-API-Key" req.headers with
  | none => false
  | some k => !(k == "" || k != API_KEY)

/-- The `require_api_key` decorator. -/
def require_api_key_wrap (req : Request) (inner : GatewayState → Outcome × GatewayState)
    (st : GatewayState) : Outcome × GatewayState :=
  if authPasses req then inner st
  else (.ok (.pair (jsonify (.envelope "Invalid or missing API key" none)) 401), st)

/-- Line 90: `request.headers.get('X-API-Key', request.remote_addr)`. -/
def client_id (req : Request) : String :=
  (headerGet "X-API-Key" req.headers).getD req.remoteAddr

/-- The client's currently stored window (`rate_limits[client_id]`,
`[]` for an unseen client). -/
def windowOf (st : GatewayState) (req : Request) : List Int :=
  (lookupAssoc st.rateLimits (client_id req)).getD []

/-- The state after the limiter's in-place window mutation (purge, plus the
append when accepted). -/
def stAfterCheck (env : GatewayEnv) (st : GatewayState) (req : Request) : GatewayState :=
  let rl := dictSetA st.rateLimits (client_id req)
    (rateLimitCheck env.now (windowOf st req)).newWindow
  { st with rateLimits := rl }

/-- Lines 128-136: attach the three `X-RateLimit-*` headers to a `Response`. -/
def addRateHeaders (r : GwResponse) (count : Nat) (now : Int) : GwResponse :=
  let h1 := dictSetCI r.headers "X-RateLimit-Limit" (toString RATE_LIMIT_MAX_REQUESTS)
  let h2 := dictSetCI h1 "X-RateLimit-Remaining"
    (toString ((RATE_LIMIT_MAX_REQUESTS : Int) - count - 1))
  let h3 := dictSetCI h2 "X-RateLimit-Reset" (toString (now + RATE_LIMIT_WINDOW))
  { r with headers := h3 }

/-- The `rate_limit` decorator.  On reject it returns the 429 tuple before
the header-attaching code.  On accept it calls the inner view; its
post-processing always finds a `Response` first component (`jsonify`
results are `Response`s), attaches the `X-RateLimit-*` headers to it and
returns the bare `Response`, discarding any tuple status code; the
`(response_obj, status, headers)` branch for non-`Response` bodies is
unreachable in this code. -/
def rate_limit_wrap (env : GatewayEnv) (inner : GatewayState → Outcome × GatewayState)
    (st : GatewayState) (req : Request) : Outcome × GatewayState :=
  if RATE_LIMIT_ENABLED = false then inner st
  else
    let r := rateLimitCheck env.now (windowOf st req)
    let st1 := stAfterCheck env st req
    if r.allowed = false then
      (.ok (.pair (jsonify
        (.rateLimited RATE_LIMIT_MAX_REQUESTS RATE_LIMIT_WINDOW r.retryAfter)) 429), st1)
    else
      match inner st1 with
      | (.error, st2) => (.error, st2)
      | (.ok (.resp r0), st2) => (.ok (.resp (addRateHeaders r0 r.count env.now)), st2)
      | (.ok (.pair r0 _), st2) => (.ok (.resp (addRateHeaders r0 r.count env.now)), st2)

/-- Per-method inbound-header allow-lists of the `api_gateway` view. -/
def GET_FORWARD_HEADERS : List String := ["Authorization", "Accept", "Accept-Language"]

def MUT_FORWARD_HEADERS : List String := ["Authorization", "Content-Type"]

def DEL_FORWARD_HEADERS : List String := ["Authorization"]

/-- The body of the `api_gateway` view (lines 239-302), without its two
decorators.  For a GET whose upstream call succeeded with status 200 the
response body is parsed and cached (parse failure is caught and skipped);
when `forward_request` returned a `(Response, status)` tuple, evaluating
`response.status_code` raises `AttributeError` (`Outcome.error`).
A cached payload is assumed truthy (`if cached_response:`). -/
def api_gateway_handler (env : GatewayEnv) (st : GatewayState) (service path : String)
    (req : Request) : Outcome × GatewayState :=
  if (lookupAssoc SERVICES service).isNone then
    (.ok (.pair (jsonify (.envelope ("Service " ++ service ++ " not found") none)) 404), st)
  else
    let cached : Option String :=
      if req.method = "GET" ∧ CACHE_ENABLED = true then
        cache_get env.now st.cache (get_cache_key service path req.queryString none req.headers)
      else none
    match cached with
    | some v => (.ok (.resp (jsonify (.jsonVal v))), st)
    | none =>
      if req.method = "GET" then
        let response := forward_request env service path "GET" (some GET_FORWARD_HEADERS) req
        if CACHE_ENABLED = true then
          match response with
          | .pair _ _ => (.error, st)
          | .resp r =>
            let st2 :=
              if r.status = 200 then
                match env.parse r.dataStr with
                | some v =>
                  let c2 := cache_set env.now st.cache
                    (get_cache_key service path req.queryString none req.headers) v
                    CACHE_TIMEOUT
                  { st with cache := c2 }
                | none => st
              else st
            (.ok (.resp r), st2)
        else (.ok response, st)
      else if req.method = "POST" ∨ req.method = "PUT" ∨ req.method = "PATCH" then
        (.ok (forward_request env service path req.method (some MUT_FORWARD_HEADERS) req), st)
      else if req.method = "DELETE" then
        (.ok (forward_request env service path req.method (some DEL_FORWARD_HEADERS) req), st)
      else
        (.ok (.pair (jsonify (.envelope "Method not allowed" none)) 405), st)

/-- How Flask turns a view's return value into the wire response: a bare
`Response` keeps its own status, a `(Response, status)` tuple gets the
tuple's status, and an uncaught exception becomes the 500 JSON envelope
(the registered 500 error handler). -/
def flaskFinalize : Outcome → GwResponse
  | .ok (.resp r) => r
  | .ok (.pair r code) => { r with status := code }
  | .error => { body := .envelope "Internal server error" none, status := 500, headers := [] }

/-- The full proxy route `/api/<service>/<path>`:
`require_api_key` wrapping `rate_limit` wrapping the view body, then
Flask's finalization. -/
def handleApi (env : GatewayEnv) (st : GatewayState) (service path : String)
    (req : Request) : GwResponse × GatewayState :=
  let x := require_api_key_wrap req
    (fun s1 => rate_limit_wrap env
      (fun s2 => api_gateway_handler env s2 service path req) s1 req) st
  (flaskFinalize x.1, x.2)

/-! ## Concrete scenario inputs used to evaluate the pipeline -/

/-- Environment whose upstream raises `RequestException` on every call. -/
def exUpstreamDown : GatewayEnv :=
  { now := 1000, choice := 0
    upstream := fun _ _ _ => .exn "connection refused"
    parse := fun _ => none }

/-- Environment whose upstream answers 200 with a non-JSON text body
(so `json.loads` fails). -/
def exUpstreamText : GatewayEnv :=
  { now := 1000, choice := 0
    upstream := fun _ _ _ => .ok 200 [("Content-Type", "text/plain")] "plain text"
    parse := fun _ => none }

/-- An authenticated GET request. -/
def exReqGet : Request :=
  { method := "GET", headers := [("X-API-Key", "test-api-key")]
    queryString := "", remoteAddr := "127.0.0.1" }

/-- A GET request without an API key. -/
def exReqNoKey : Request :=
  { method := "GET", headers := [], queryString := "", remoteAddr := "127.0.0.1" }

/-- Fresh gateway state. -/
def exStateEmpty : GatewayState := { rateLimits := [], cache := [] }

/-- State whose single window already holds 100 in-window timestamps. -/
def exStateFull : GatewayState :=
  { rateLimits := [("test-api-key", List.replicate 100 (995 : Int))], cache := [] }

/-- The gateway response `forward_request` builds from `exUpstreamText`'s
upstream answer. -/
def exRespText : GwResponse :=
  { body := .raw "plain text", status := 200, headers := [("Content-Type", "text/plain")] }

end ApiGateway

namespace ApiGateway

/-! ## Basic lemmas about the helpers -/

theorem lookupAssoc_dictSetA_self {α : Type} (d : List (String × α)) (k : String) (v : α) :
    lookupAssoc (dictSetA d k v) k = some v := by
  induction d with
  | nil => simp [lookupAssoc, dictSetA]
  | cons p ps ih =>
    by_cases h : p.1 = k
    · simp [dictSetA, h, lookupAssoc]
    · have hb : (p.1 == k) = false := beq_false_of_ne h
      simp only [dictSetA, if_neg h, lookupAssoc, List.find?, hb]
      exact ih

theorem listMin_foldl_le (ts : List Int) (a : Int) : ts.foldl min a ≤ a := by
  induction ts generalizing a with
  | nil => simp
  | cons t ts ih => exact le_trans (ih (min a t)) (min_le_left a t)

theorem listMin_foldl_le_mem (ts : List Int) (a x : Int) (hx : x ∈ ts) :
    ts.foldl min a ≤ x := by
  induction ts generalizing a with
  | nil => cases hx
  | cons t ts ih =>
    rcases List.mem_cons.mp hx with h | h
    · subst h
      exact le_trans (listMin_foldl_le ts (min a x)) (min_le_right a x)
    · exact ih (min a t) h

theorem listMin_foldl_mem (ts : List Int) (a : Int) :
    ts.foldl min a = a ∨ ts.foldl min a ∈ ts := by
  induction ts generalizing a with
  | nil => exact Or.inl rfl
  | cons t ts ih =>
    rcases ih (min a t) with h | h
    · rcases min_choice a t with hm | hm
      · exact Or.inl (by simp only [List.foldl_cons]; rw [h, hm])
      · exact Or.inr (by simp only [List.foldl_cons]; rw [h, hm]; exact List.mem_cons_self t ts)
    · exact Or.inr (List.mem_cons_of_mem t h)

theorem listMin_mem (l : List Int) (h : l ≠ []) : listMin l ∈ l := by
  match l with
  | [] => exact absurd rfl h
  | t :: ts =>
    rcases listMin_foldl_mem ts t with h' | h'
    · rw [listMin, h']; exact List.mem_cons_self t ts
    · exact List.mem_cons_of_mem t h'

theorem listMin_le (l : List Int) (x : Int) (hx : x ∈ l) : listMin l ≤ x := by
  match l with
  | [] => cases hx
  | t :: ts =>
    rcases List.mem_cons.mp hx with h | h
    · subst h; exact listMin_foldl_le ts x
    · exact listMin_foldl_le_mem ts t x h

/-! ## MD5 validation against the RFC 1321 / standard test vectors -/

theorem md5Hex_vector_empty : md5Hex [] = "d41d8cd98f00b204e9800998ecf8427e" := by decide

theorem md5Hex_vector_abc :
    md5Hex (utf8Bytes "abc") = "900150983cd24fb0d6963f7d28e17f72" := by decide

theorem md5Hex_vector_fox :
    md5Hex (utf8Bytes "The quick brown fox jumps over the lazy dog")
      = "9e107d9d372bb6826bd81d3542a419d6" := by decide

/-! ## Rate-limiter lemmas -/

theorem purgeWindow_length_le (now : Int) (w : List Int) :
    (purgeWindow now w).length ≤ w.length :=
  List.length_filter_le _ w

theorem purgeWindow_eq_self (now : Int) (w : List Int)
    (h : ∀ x ∈ w, now - RATE_LIMIT_WINDOW < x) : purgeWindow now w = w :=
  List.filter_eq_self.mpr (fun a ha => decide_eq_true (h a ha))

theorem rateLimitCheck_accept (now : Int) (w : List Int)
    (h : (purgeWindow now w).length < RATE_LIMIT_MAX_REQUESTS) :
    rateLimitCheck now w =
      { allowed := true
        count := (purgeWindow now w).length
        retryAfter := 0
        newWindow := purgeWindow now w ++ [now] } := by
  unfold rateLimitCheck
  rw [if_neg (by omega)]

theorem rateLimitCheck_reject (now : Int) (w : List Int)
    (h : RATE_LIMIT_MAX_REQUESTS ≤ (purgeWindow now w).length) :
    rateLimitCheck now w =
      { allowed := false
        count := (purgeWindow now w).length
        retryAfter := RATE_LIMIT_WINDOW - (now - listMin (purgeWindow now w))
        newWindow := purgeWindow now w } := by
  unfold rateLimitCheck
  rw [if_pos h]

theorem rateLimitCheck_allowed_iff (now : Int) (w : List Int) :
    (rateLimitCheck now w).allowed = true ↔
      (purgeWindow now w).length < RATE_LIMIT_MAX_REQUESTS := by
  by_cases h : RATE_LIMIT_MAX_REQUESTS ≤ (purgeWindow now w).length
  · rw [rateLimitCheck_reject now w h]
    simp
    omega
  · rw [rateLimitCheck_accept now w (by omega)]
    simp
    omega

/-- Starting from a stored window, any run of requests short enough that
window size plus request count stays within the limit is fully allowed. -/
theorem run_accepts_of_short (ts : List Int) (w : List Int)
    (h : w.length + ts.length ≤ RATE_LIMIT_MAX_REQUESTS) :
    (runRequests ts w).1.map RateResult.allowed = List.replicate ts.length true := by
  induction ts generalizing w with
  | nil => simp [runRequests]
  | cons t ts ih =>
    have hple := purgeWindow_length_le t w
    have hlt : (purgeWindow t w).length < RATE_LIMIT_MAX_REQUESTS := by
      simp only [List.length_cons] at h
      omega
    simp only [runRequests, rateLimitCheck_accept t w hlt, List.map_cons, List.length_cons,
      List.replicate_succ]
    refine congrArg (List.cons true) (ih _ ?_)
    simp only [List.length_append, List.length_cons, List.length_nil] at *
    omega

theorem runRequests_append (l1 l2 : List Int) (w : List Int) :
    runRequests (l1 ++ l2) w =
      ((runRequests l1 w).1 ++ (runRequests l2 (runRequests l1 w).2).1,
       (runRequests l2 (runRequests l1 w).2).2) := by
  induction l1 generalizing w with
  | nil => simp [runRequests]
  | cons t ts ih => simp [runRequests, ih]

/-- When every involved timestamp lies strictly inside the trailing window
ending at an upper bound `T` of the request times, no purge removes
anything: a run that fits the limit is fully allowed and the stored window
afterwards is exactly the old window plus all the request times. -/
theorem run_full_of_window (ts : List Int) (w : List Int) (T : Int)
    (hlen : w.length + ts.length ≤ RATE_LIMIT_MAX_REQUESTS)
    (hle : ∀ t ∈ ts, t ≤ T)
    (hw : ∀ x ∈ w, T - RATE_LIMIT_WINDOW < x)
    (hts : ∀ t ∈ ts, T - RATE_LIMIT_WINDOW < t) :
    (runRequests ts w).1.map RateResult.allowed = List.replicate ts.length true ∧
    (runRequests ts w).2 = w ++ ts := by
  induction ts generalizing w with
  | nil => simp [runRequests]
  | cons t ts ih =>
    have hpw : purgeWindow t w = w := purgeWindow_eq_self _ _ (fun x hx => by
      have h1 := hw x hx
      have h2 := hle t (List.mem_cons_self t ts)
      omega)
    have hlt : (purgeWindow t w).length < RATE_LIMIT_MAX_REQUESTS := by
      rw [hpw]
      simp only [List.length_cons] at hlen
      omega
    obtain ⟨ih1, ih2⟩ := ih (w ++ [t])
      (by simp only [List.length_append, List.length_cons, List.length_nil] at *; omega)
      (fun u hu => hle u (List.mem_cons_of_mem t hu))
      (fun x hx => by
        rcases List.mem_append.mp hx with h | h
        · exact hw x h
        · rw [List.mem_singleton.mp h]; exact hts t (List.mem_cons_self t ts))
      (fun u hu => hts u (List.mem_cons_of_mem t hu))
    constructor
    · simp only [runRequests, rateLimitCheck_accept t w hlt, List.map_cons, List.length_cons,
        List.replicate_succ, hpw]
      exact congrArg (List.cons true) ih1
    · simp only [runRequests, rateLimitCheck_accept t w hlt, hpw, ih2]
      simp [List.append_assoc]

/-! ## Claim C1 -/

/-- C1: Sliding-window rate limit bound.  A call is allowed iff the purged
window holds fewer than `RATE_LIMIT_MAX_REQUESTS = 100` timestamps; any
sequence of at most 100 requests (from a fresh client) is entirely
allowed; for 100 requests all falling inside the trailing
`RATE_LIMIT_WINDOW = 60`-second window ending at the next request time,
that 101st request is rejected; and a rejecting call of the `rate_limit`
decorator returns the rate-limit body as a 429 response. -/
theorem sliding_window_rate_limit_bound (ts : List Int) (tNext : Int)
    (hlen : ts.length = RATE_LIMIT_MAX_REQUESTS)
    (hmono : ∀ t ∈ ts, t ≤ tNext)
    (hwin : ∀ t ∈ ts, tNext - RATE_LIMIT_WINDOW < t) :
    (∀ (now : Int) (w : List Int),
      (rateLimitCheck now w).allowed = true ↔
        (purgeWindow now w).length < RATE_LIMIT_MAX_REQUESTS) ∧
    (∀ shortTimes : List Int, shortTimes.length ≤ RATE_LIMIT_MAX_REQUESTS →
      (runRequests shortTimes []).1.map RateResult.allowed
        = List.replicate shortTimes.length true) ∧
    ((runRequests (ts ++ [tNext]) []).1.map RateResult.allowed
        = List.replicate RATE_LIMIT_MAX_REQUESTS true ++ [false]) ∧
    (∀ (env : GatewayEnv) (inner : GatewayState → Outcome × GatewayState)
        (st : GatewayState) (req : Request),
      (rateLimitCheck env.now (windowOf st req)).allowed = false →
      (rate_limit_wrap env inner st req).1 = .ok (.pair (jsonify
        (.rateLimited RATE_LIMIT_MAX_REQUESTS RATE_LIMIT_WINDOW
          (rateLimitCheck env.now (windowOf st req)).retryAfter)) 429)) := by
  refine ⟨rateLimitCheck_allowed_iff, ?_, ?_, ?_⟩
  · intro l hl
    exact run_accepts_of_short l [] (by simpa using hl)
  · obtain ⟨h1, h2⟩ := run_full_of_window ts [] tNext
      (by simp [hlen]) hmono (by simp) hwin
    have hpw : purgeWindow tNext ts = ts := purgeWindow_eq_self _ _ hwin
    have hrej : RATE_LIMIT_MAX_REQUESTS ≤ (purgeWindow tNext ts).length := by
      rw [hpw, hlen]
    rw [runRequests_append, List.map_append, h1, hlen]
    rw [h2]
    simp only [List.nil_append, runRequests, rateLimitCheck_reject tNext ts hrej, List.map_cons,
      List.map_nil]
  · intro env inner st req h
    unfold rate_limit_wrap
    rw [if_neg (by simp [RATE_LIMIT_ENABLED])]
    rw [if_pos h]

/-- C1 witness: 100 requests at time 50 are all allowed and the 101st at
time 50 is rejected. -/
theorem sliding_window_rate_limit_bound_w :
    (List.replicate 100 (50 : Int)).length = RATE_LIMIT_MAX_REQUESTS ∧
    ((runRequests (List.replicate 100 (50 : Int) ++ [(50 : Int)]) []).1.map RateResult.allowed
        = List.replicate RATE_LIMIT_MAX_REQUESTS true ++ [false]) :=
  ⟨by decide,
   (sliding_window_rate_limit_bound (List.replicate 100 (50 : Int)) 50 (by decide)
      (fun t ht => le_of_eq (List.eq_of_mem_replicate ht))
      (fun t ht => by rw [List.eq_of_mem_replicate ht]; decide)).2.2.1⟩

/-! ## Claim C2 -/

/-- C2: On rejection, `retry_after` equals the time until the oldest
surviving timestamp exits the window: `(min + W) - now`, where `min` is
the least element of the purged window (characterised as a member that is
a lower bound). -/
theorem reject_retry_after_eq_reset (now : Int) (w : List Int)
    (h : RATE_LIMIT_MAX_REQUESTS ≤ (purgeWindow now w).length) :
    listMin (purgeWindow now w) ∈ purgeWindow now w ∧
    (∀ x ∈ purgeWindow now w, listMin (purgeWindow now w) ≤ x) ∧
    (rateLimitCheck now w).retryAfter
      = (listMin (purgeWindow now w) + RATE_LIMIT_WINDOW) - now := by
  have hne : purgeWindow now w ≠ [] := by
    intro he
    rw [he] at h
    simp [RATE_LIMIT_MAX_REQUESTS] at h
  refine ⟨listMin_mem _ hne, fun x hx => listMin_le _ x hx, ?_⟩
  rw [rateLimitCheck_reject now w h]
  show RATE_LIMIT_WINDOW - (now - listMin (purgeWindow now w)) = _
  omega

/-- C2 witness: at `now = 200` with 100 stored timestamps at 150, the
rejection's `retry_after` is `(150 + 60) - 200 = 10`. -/
theorem reject_retry_after_eq_reset_w :
    RATE_LIMIT_MAX_REQUESTS ≤ (purgeWindow 200 (List.replicate 100 (150 : Int))).length ∧
    (rateLimitCheck 200 (List.replicate 100 (150 : Int))).retryAfter
      = (listMin (purgeWindow 200 (List.replicate 100 (150 : Int))) + RATE_LIMIT_WINDOW) - 200 :=
  ⟨by decide, (reject_retry_after_eq_reset 200 (List.replicate 100 (150 : Int)) (by decide)).2.2⟩

/-! ## Claim C3 -/

/-- C3: A rejected call appends no timestamp — its only mutation is the
lazy purge; the current time is appended exactly on accept.  At the
decorator level, a rejecting call leaves the state equal to the old state
with that client's window merely purged, and the cache untouched. -/
theorem rejected_request_not_recorded (now : Int) (w : List Int) (env : GatewayEnv)
    (inner : GatewayState → Outcome × GatewayState) (st : GatewayState) (req : Request) :
    ((rateLimitCheck now w).allowed = false →
      (rateLimitCheck now w).newWindow = purgeWindow now w) ∧
    ((rateLimitCheck now w).allowed = true →
      (rateLimitCheck now w).newWindow = purgeWindow now w ++ [now]) ∧
    ((rateLimitCheck env.now (windowOf st req)).allowed = false →
      (rate_limit_wrap env inner st req).2.rateLimits
        = dictSetA st.rateLimits (client_id req) (purgeWindow env.now (windowOf st req)) ∧
      (rate_limit_wrap env inner st req).2.cache = st.cache) := by
  have key : ∀ (n : Int) (v : List Int), (rateLimitCheck n v).allowed = false →
      (rateLimitCheck n v).newWindow = purgeWindow n v := by
    intro n v hf
    by_cases hc : RATE_LIMIT_MAX_REQUESTS ≤ (purgeWindow n v).length
    · rw [rateLimitCheck_reject n v hc]
    · rw [rateLimitCheck_accept n v (by omega)] at hf
      simp at hf
  refine ⟨key now w, ?_, ?_⟩
  · intro ht
    by_cases hc : RATE_LIMIT_MAX_REQUESTS ≤ (purgeWindow now w).length
    · rw [rateLimitCheck_reject now w hc] at ht
      simp at ht
    · rw [rateLimitCheck_accept now w (by omega)]
  · intro hf
    unfold rate_limit_wrap
    rw [if_neg (by simp [RATE_LIMIT_ENABLED])]
    rw [if_pos hf]
    unfold stAfterCheck
    rw [key env.now (windowOf st req) hf]
    exact ⟨rfl, rfl⟩

/-- C3 witness: a concrete rejected call (100 timestamps at 150, now 200)
stores exactly the purged window and appends nothing. -/
theorem rejected_request_not_recorded_w :
    (rateLimitCheck 200 (List.replicate 100 (150 : Int))).allowed = false ∧
    (rateLimitCheck 200 (List.replicate 100 (150 : Int))).newWindow
      = purgeWindow 200 (List.replicate 100 (150 : Int)) :=
  ⟨by decide,
   (rejected_request_not_recorded 200 (List.replicate 100 (150 : Int))
      { now := 0, choice := 0, upstream := fun _ _ _ => .exn "", parse := fun _ => none }
      (fun s => (.error, s)) ⟨[], []⟩
      ⟨"GET", [], "", ""⟩).1 (by decide)⟩

/-! ## Claim C10 -/

/-- C10: the API-key check accepts only `Config.API_KEY`, and the limiter's
client identifier is derived from the same `X-API-Key` header, so every
authenticated request has client identifier `Config.API_KEY` — all
authenticated traffic shares one rate-limit window. -/
theorem authenticated_requests_share_client_id (r1 r2 : Request)
    (h1 : authPasses r1 = true) (h2 : authPasses r2 = true) :
    client_id r1 = API_KEY ∧ client_id r1 = client_id r2 := by
  have key : ∀ r : Request, authPasses r = true → client_id r = API_KEY := by
    intro r h
    unfold authPasses at h
    unfold client_id
    cases hg : headerGet "X-API-Key" r.headers with
    | none => rw [hg] at h; cases h
    | some k =>
      rw [hg] at h
      simp only [Bool.not_eq_true', Bool.or_eq_false_iff, beq_eq_false_iff_ne,
        bne_eq_false_iff_eq] at h
      rw [Option.getD_some]
      exact h.2
  exact ⟨key r1 h1, (key r1 h1).trans (key r2 h2).symm⟩

/-- C10 witness: two authenticated requests from different source addresses
have the same client identifier, the configured API key. -/
theorem authenticated_requests_share_client_id_w :
    authPasses ⟨"GET", [("X-API-Key", "test-api-key")], "", "10.0.0.1"⟩ = true ∧
    client_id ⟨"GET", [("X-API-Key", "test-api-key")], "", "10.0.0.1"⟩ = API_KEY ∧
    client_id ⟨"GET", [("X-API-Key", "test-api-key")], "", "10.0.0.1"⟩
      = client_id ⟨"GET", [("X-API-Key", "test-api-key")], "", "10.0.0.2"⟩ := by
  have h := authenticated_requests_share_client_id
    ⟨"GET", [("X-API-Key", "test-api-key")], "", "10.0.0.1"⟩
    ⟨"GET", [("X-API-Key", "test-api-key")], "", "10.0.0.2"⟩ (by decide) (by decide)
  exact ⟨by decide, h.1, h.2⟩

/-! ## Claim C5 -/

/-- C5 counterexample: with the scenario marking (`A` healthy, `B`
unhealthy) on `user_service`'s endpoints `[A, B]`, the random draw with
index 1 resolves to `B`, an endpoint marked unhealthy — refuting both
"never returns an endpoint marked unhealthy" and "every resolution
returns A". -/
theorem resolution_returns_unhealthy_endpoint :
    get_service_url SERVICES 1 "user_service" = some "http://localhost:8002" ∧
    scenarioHealth "http://localhost:8002" = false := by decide

/-- C5 amended: `get_service_url` consults no health state at all — it
returns `none` exactly for an unknown service or an empty endpoint list,
and otherwise some member of the full endpoint list, whatever the draw. -/
theorem get_service_url_ignores_health (services : List (String × List String))
    (choice : Nat) (service : String) :
    (lookupAssoc services service = none → get_service_url services choice service = none) ∧
    (∀ urls, lookupAssoc services service = some urls → urls = [] →
      get_service_url services choice service = none) ∧
    (∀ urls, lookupAssoc services service = some urls → urls ≠ [] →
      ∃ u, get_service_url services choice service = some u ∧ u ∈ urls) := by
  refine ⟨?_, ?_, ?_⟩
  · intro h
    unfold get_service_url
    rw [h]
  · intro urls h he
    unfold get_service_url
    rw [h]
    subst he
    simp
  · intro urls h hne
    unfold get_service_url
    rw [h]
    dsimp only
    rw [if_neg hne]
    have hlen : 0 < urls.length := List.length_pos.mpr hne
    have hmod : choice % urls.length < urls.length := Nat.mod_lt _ hlen
    exact ⟨urls.get ⟨choice % urls.length, hmod⟩, List.get?_eq_get hmod, List.get_mem _ _ _⟩

/-- C5 witness: for `user_service` the amended theorem yields a resolved
endpoint from the registered list. -/
theorem get_service_url_ignores_health_w :
    lookupAssoc SERVICES "user_service"
      = some ["http://localhost:8001", "http://localhost:8002"] ∧
    ∃ u, get_service_url SERVICES 1 "user_service" = some u
        ∧ u ∈ ["http://localhost:8001", "http://localhost:8002"] :=
  ⟨by decide,
   (get_service_url_ignores_health SERVICES 1 "user_service").2.2
     ["http://localhost:8001", "http://localhost:8002"] (by decide) (by decide)⟩

/-! ## Claim C4 -/

/-- The header-collecting fold of `get_cache_key` depends on the request
headers only through `headerGet`. -/
theorem cacheKeyFold_congr (rh1 rh2 : List (String × String))
    (hsame : ∀ n, headerGet n rh1 = headerGet n rh2) (l : List String) (acc : List String) :
    l.foldl (fun acc h =>
      match headerGet h rh1 with
      | some v => if v = "" then acc else acc ++ [h ++ ":" ++ v]
      | none => acc) acc
    = l.foldl (fun acc h =>
      match headerGet h rh2 with
      | some v => if v = "" then acc else acc ++ [h ++ ":" ++ v]
      | none => acc) acc := by
  induction l generalizing acc with
  | nil => rfl
  | cons h t ih =>
    simp only [List.foldl_cons, hsame h]
    exact ih _

/-- C4 counterexample: two requests to the same service and path that
differ only in the ordering of their query parameters get different cache
keys — the raw query string is hashed, with no normalization. -/
theorem cache_key_changes_under_query_reorder :
    get_cache_key "product_service" "products" "a=1&b=2" none []
      ≠ get_cache_key "product_service" "products" "b=2&a=1" none [] := by decide

/-- C4 amended: the cache key is a deterministic MD5 hash of service, path
and the *raw* query string (plus any selected header values).  It is
invariant under anything that preserves the case-insensitive header
lookups — in particular reordering or re-casing inbound header lines —
but it is *not* invariant under query-parameter reordering. -/
theorem cache_key_header_invariant_query_sensitive
    (service path query : String) (hl : List String) (rh1 rh2 : List (String × String))
    (hsame : ∀ n, headerGet n rh1 = headerGet n rh2) :
    get_cache_key service path query (some hl) rh1
      = get_cache_key service path query (some hl) rh2 ∧
    get_cache_key "product_service" "products" "a=1&b=2" none []
      ≠ get_cache_key "product_service" "products" "b=2&a=1" none [] := by
  constructor
  · unfold get_cache_key
    dsimp only
    rw [cacheKeyFold_congr rh1 rh2 hsame hl [service, path, query]]
  · decide

/-- C4 witness: the amended theorem applied at a concrete header map. -/
theorem cache_key_header_invariant_query_sensitive_w :
    (∀ n, headerGet n [("Accept", "application/json")]
        = headerGet n [("Accept", "application/json")]) ∧
    get_cache_key "user_service" "users" "q=1" (some ["Accept"]) [("Accept", "application/json")]
      = get_cache_key "user_service" "users" "q=1" (some ["Accept"])
          [("Accept", "application/json")] :=
  ⟨fun _ => rfl,
   (cache_key_header_invariant_query_sensitive "user_service" "users" "q=1" ["Accept"]
      [("Accept", "application/json")] [("Accept", "application/json")] (fun _ => rfl)).1⟩

/-! ## Claim C6 -/

/-- C6: evaluating the full proxy pipeline at the spec's failure inputs.
An authenticated GET for the unknown service `nosuch` produces the
`Service nosuch not found` JSON envelope, but with terminal status 200 —
not 404 — because the `rate_limit` decorator's post-processing attaches
headers to the tuple's `Response` and returns it bare, discarding the
status.  An authenticated GET to a known service whose upstream raises a
connection error ends in status 500 (an `AttributeError` on the 503
tuple), and the same request with method POST ends in status 200 — never
the claimed 503. -/
theorem error_statuses_flattened_by_decorator :
    ((handleApi exUpstreamDown exStateEmpty "nosuch" "items" exReqGet).1.status = 200 ∧
     (handleApi exUpstreamDown exStateEmpty "nosuch" "items" exReqGet).1.body
        = .envelope "Service nosuch not found" none) ∧
    (handleApi exUpstreamDown exStateEmpty "user_service" "items" exReqGet).1.status = 500 ∧
    (handleApi exUpstreamDown exStateEmpty "user_service" "items"
        { exReqGet with method := "POST" }).1.status = 200 := by decide

/-! ## Case-insensitive header-container lemmas -/

theorem headerGet_dictSetCI_self (d : List (String × String)) (k v : String) :
    headerGet k (dictSetCI d k v) = some v := by
  induction d with
  | nil => simp [dictSetCI, headerGet, List.find?]
  | cons p ps ih =>
    by_cases h : lowerAscii p.1 = lowerAscii k
    · simp [dictSetCI, if_pos h, headerGet, List.find?]
    · have hb : (lowerAscii p.1 == lowerAscii k) = false := beq_false_of_ne h
      simp only [dictSetCI, if_neg h, headerGet, List.find?, hb]
      exact ih

theorem headerGet_dictSetCI_other (d : List (String × String)) (k v n : String)
    (h : lowerAscii n ≠ lowerAscii k) :
    headerGet n (dictSetCI d k v) = headerGet n d := by
  have hb : (lowerAscii k == lowerAscii n) = false := beq_false_of_ne (fun e => h e.symm)
  induction d with
  | nil => simp [dictSetCI, headerGet, List.find?, hb]
  | cons p ps ih =>
    by_cases hp : lowerAscii p.1 = lowerAscii k
    · have hb2 : (lowerAscii p.1 == lowerAscii n) = false := by rw [hp]; exact hb
      simp [dictSetCI, if_pos hp, headerGet, List.find?, hb, hb2]
    · by_cases hn : lowerAscii p.1 = lowerAscii n
      · have hbt : (lowerAscii p.1 == lowerAscii n) = true := beq_iff_eq.mpr hn
        simp only [dictSetCI, if_neg hp, headerGet, List.find?, hbt]
      · have hb3 : (lowerAscii p.1 == lowerAscii n) = false := beq_false_of_ne hn
        simp only [dictSetCI, if_neg hp, headerGet, List.find?, hb3]
        exact ih

/-! ## Claim C7 -/

/-- Each of the three `X-RateLimit-*` headers is present after
`addRateHeaders`. -/
theorem addRateHeaders_isSome (r0 : GwResponse) (cnt : Nat) (now : Int) :
    (headerGet "X-RateLimit-Limit" (addRateHeaders r0 cnt now).headers).isSome ∧
    (headerGet "X-RateLimit-Remaining" (addRateHeaders r0 cnt now).headers).isSome ∧
    (headerGet "X-RateLimit-Reset" (addRateHeaders r0 cnt now).headers).isSome := by
  unfold addRateHeaders
  refine ⟨?_, ?_, ?_⟩
  · rw [headerGet_dictSetCI_other _ _ _ _ (by decide),
      headerGet_dictSetCI_other _ _ _ _ (by decide), headerGet_dictSetCI_self]
    rfl
  · rw [headerGet_dictSetCI_other _ _ _ _ (by decide), headerGet_dictSetCI_self]
    rfl
  · rw [headerGet_dictSetCI_self]
    rfl

/-- C7 amended: responses that return through the `rate_limit` decorator's
post-processing — cache hits, forwarded responses, and even the
status-flattened error tuples — carry all three `X-RateLimit-*` headers;
but (see the counterexample) the 401 and 429 responses return before the
header-attaching code and carry none of them. -/
theorem responses_via_decorator_carry_rate_headers
    (env : GatewayEnv) (st : GatewayState) (service path : String) (req : Request)
    (res : PyResult) (st2 : GatewayState)
    (hauth : authPasses req = true)
    (hallow : (rateLimitCheck env.now (windowOf st req)).allowed = true)
    (hinner : api_gateway_handler env (stAfterCheck env st req) service path req
        = (.ok res, st2)) :
    (headerGet "X-RateLimit-Limit" (handleApi env st service path req).1.headers).isSome ∧
    (headerGet "X-RateLimit-Remaining" (handleApi env st service path req).1.headers).isSome ∧
    (headerGet "X-RateLimit-Reset" (handleApi env st service path req).1.headers).isSome := by
  cases res with
  | resp r0 =>
    simp only [handleApi, require_api_key_wrap, rate_limit_wrap, hauth, RATE_LIMIT_ENABLED,
      hallow, hinner, flaskFinalize, if_true]
    simp only [show (true = false) = False from by simp, if_false]
    exact addRateHeaders_isSome r0 _ _
  | pair r0 c =>
    simp only [handleApi, require_api_key_wrap, rate_limit_wrap, hauth, RATE_LIMIT_ENABLED,
      hallow, hinner, flaskFinalize, if_true]
    simp only [show (true = false) = False from by simp, if_false]
    exact addRateHeaders_isSome r0 _ _

/-- C7 witness: a concrete forwarded GET through the full pipeline carries
the rate-limit headers. -/
theorem responses_via_decorator_carry_rate_headers_w :
    authPasses exReqGet = true ∧
    (rateLimitCheck exUpstreamText.now (windowOf exStateEmpty exReqGet)).allowed = true ∧
    api_gateway_handler exUpstreamText (stAfterCheck exUpstreamText exStateEmpty exReqGet)
        "user_service" "items" exReqGet
      = (.ok (.resp exRespText), stAfterCheck exUpstreamText exStateEmpty exReqGet) ∧
    (headerGet "X-RateLimit-Limit"
      (handleApi exUpstreamText exStateEmpty "user_service" "items" exReqGet).1.headers).isSome :=
  ⟨by decide, by decide, by decide,
   (responses_via_decorator_carry_rate_headers exUpstreamText exStateEmpty "user_service"
      "items" exReqGet (.resp exRespText) (stAfterCheck exUpstreamText exStateEmpty exReqGet)
      (by decide) (by decide) (by decide)).1⟩

/-- C7 counterexample: the 401 response (missing API key) and the 429
response (limit exhausted) carry no `X-RateLimit-Limit` header — both
return before the decorator's header-attaching code. -/
theorem responses_401_429_lack_rate_headers :
    ((handleApi exUpstreamDown exStateEmpty "user_service" "users" exReqNoKey).1.status = 401 ∧
     headerGet "X-RateLimit-Limit"
       (handleApi exUpstreamDown exStateEmpty "user_service" "users" exReqNoKey).1.headers
         = none) ∧
    ((handleApi exUpstreamDown exStateFull "user_service" "users" exReqGet).1.status = 429 ∧
     headerGet "X-RateLimit-Limit"
       (handleApi exUpstreamDown exStateFull "user_service" "users" exReqGet).1.headers
         = none) := by decide

/-! ## Claim C9 -/

/-- C9: for a GET whose upstream call succeeded with status 200 but whose
body fails JSON parsing, the handler skips the cache write, leaves the
state (including the cache) unchanged, and returns the forwarded response
itself, unmodified in status and body. -/
theorem cache_parse_failure_never_fails_request
    (env : GatewayEnv) (st : GatewayState) (service path : String) (req : Request)
    (r : GwResponse)
    (hs : lookupAssoc SERVICES service ≠ none)
    (hm : req.method = "GET")
    (hmiss : cache_get env.now st.cache
        (get_cache_key service path req.queryString none req.headers) = none)
    (hfr : forward_request env service path "GET" (some GET_FORWARD_HEADERS) req = .resp r)
    (h200 : r.status = 200)
    (hparse : env.parse r.dataStr = none) :
    api_gateway_handler env st service path req = (.ok (.resp r), st) := by
  have hs' : (lookupAssoc SERVICES service).isNone = false := by
    cases ho : lookupAssoc SERVICES service with
    | none => exact absurd ho hs
    | some _ => rfl
  simp only [api_gateway_handler, hs', hm, hmiss, hfr, h200, hparse, CACHE_ENABLED]
  simp

/-- C9 witness: a concrete GET whose upstream answers 200 with a non-JSON
body passes through unchanged with an untouched cache. -/
theorem cache_parse_failure_never_fails_request_w :
    lookupAssoc SERVICES "user_service" ≠ none ∧
    exReqGet.method = "GET" ∧
    forward_request exUpstreamText "user_service" "items" "GET" (some GET_FORWARD_HEADERS)
        exReqGet = .resp exRespText ∧
    exUpstreamText.parse exRespText.dataStr = none ∧
    api_gateway_handler exUpstreamText exStateEmpty "user_service" "items" exReqGet
      = (.ok (.resp exRespText), exStateEmpty) :=
  ⟨by decide, rfl, by decide, rfl,
   cache_parse_failure_never_fails_request exUpstreamText exStateEmpty "user_service" "items"
     exReqGet exRespText (by decide) rfl (by decide) (by decide) rfl rfl⟩

/-! ## Python-dict membership lemmas -/

theorem mem_dictSetA_self {α : Type} (d : List (String × α)) (k : String) (v : α) :
    (k, v) ∈ dictSetA d k v := by
  induction d with
  | nil => simp [dictSetA]
  | cons p ps ih =>
    by_cases h : p.1 = k
    · simp [dictSetA, if_pos h]
    · simp only [dictSetA, if_neg h]
      exact List.mem_cons_of_mem p ih

theorem mem_dictSetA_elim {α : Type} {d : List (String × α)} {k : String} {v : α}
    {p : String × α} (h : p ∈ dictSetA d k v) : (p.1 = k ∧ p.2 = v) ∨ p ∈ d := by
  induction d with
  | nil =>
    simp [dictSetA] at h
    exact Or.inl (by rw [h]; exact ⟨rfl, rfl⟩)
  | cons q ps ih =>
    by_cases hq : q.1 = k
    · simp only [dictSetA, if_pos hq] at h
      rcases List.mem_cons.mp h with h1 | h1
      · exact Or.inl (by rw [h1]; exact ⟨rfl, rfl⟩)
      · exact Or.inr (List.mem_cons_of_mem q h1)
    · simp only [dictSetA, if_neg hq] at h
      rcases List.mem_cons.mp h with h1 | h1
      · exact Or.inr (by rw [h1]; exact List.mem_cons_self q ps)
      · rcases ih h1 with h2 | h2
        · exact Or.inl h2
        · exact Or.inr (List.mem_cons_of_mem q h2)

theorem mem_dictSetA_of_ne {α : Type} {d : List (String × α)} {k : String} {v : α}
    {p : String × α} (hne : p.1 ≠ k) (hp : p ∈ d) : p ∈ dictSetA d k v := by
  induction d with
  | nil => cases hp
  | cons q ps ih =>
    rcases List.mem_cons.mp hp with h1 | h1
    · by_cases hq : q.1 = k
      · exact absurd (by rw [h1]; exact hq) hne
      · simp only [dictSetA, if_neg hq]
        rw [h1]
        exact List.mem_cons_self q _
    · by_cases hq : q.1 = k
      · simp only [dictSetA, if_pos hq]
        exact List.mem_cons_of_mem _ h1
      · simp only [dictSetA, if_neg hq]
        exact List.mem_cons_of_mem q (ih h1)

theorem mem_dictSetCI_elim {d : List (String × String)} {k v : String}
    {p : String × String} (h : p ∈ dictSetCI d k v) : (p.1 = k ∧ p.2 = v) ∨ p ∈ d := by
  induction d with
  | nil =>
    simp [dictSetCI] at h
    exact Or.inl (by rw [h]; exact ⟨rfl, rfl⟩)
  | cons q ps ih =>
    by_cases hq : lowerAscii q.1 = lowerAscii k
    · simp only [dictSetCI, if_pos hq] at h
      rcases List.mem_cons.mp h with h1 | h1
      · exact Or.inl (by rw [h1]; exact ⟨rfl, rfl⟩)
      · exact Or.inr (List.mem_cons_of_mem q h1)
    · simp only [dictSetCI, if_neg hq] at h
      rcases List.mem_cons.mp h with h1 | h1
      · exact Or.inr (by rw [h1]; exact List.mem_cons_self q ps)
      · rcases ih h1 with h2 | h2
        · exact Or.inl h2
        · exact Or.inr (List.mem_cons_of_mem q h2)

/-! ## Claim C8 -/

/-- Soundness of the inbound-header-collecting fold of `forward_request`:
everything in the built dict is an allow-listed header with its (truthy)
inbound value. -/
theorem reqFold_sound (inbound : List (String × String)) (l : List String)
    (acc : List (String × String)) (p : String × String)
    (hp : p ∈ l.foldl (fun acc h =>
      match headerGet h inbound with
      | some v => if v = "" then acc else dictSetA acc h v
      | none => acc) acc) :
    p ∈ acc ∨ (p.1 ∈ l ∧ headerGet p.1 inbound = some p.2 ∧ p.2 ≠ "") := by
  induction l generalizing acc with
  | nil => exact Or.inl hp
  | cons h t ih =>
    simp only [List.foldl_cons] at hp
    rcases ih _ hp with h1 | h1
    · cases hg : headerGet h inbound with
      | none =>
        rw [hg] at h1
        exact Or.inl h1
      | some v =>
        rw [hg] at h1
        dsimp only at h1
        by_cases hv : v = ""
        · rw [if_pos hv] at h1
          exact Or.inl h1
        · rw [if_neg hv] at h1
          rcases mem_dictSetA_elim h1 with h2 | h2
          · refine Or.inr ⟨by rw [h2.1]; exact List.mem_cons_self h t, ?_, ?_⟩
            · rw [h2.1, hg, h2.2]
            · rw [h2.2]; exact hv
          · exact Or.inl h2
    · exact Or.inr ⟨List.mem_cons_of_mem h h1.1, h1.2⟩

/-- An entry of the dict whose value agrees with the inbound lookup for its
name survives the rest of the fold. -/
theorem reqFold_preserve (inbound : List (String × String)) (l : List String)
    (acc : List (String × String)) (p : String × String)
    (hin : p ∈ acc) (hv : headerGet p.1 inbound = some p.2) :
    p ∈ l.foldl (fun acc h =>
      match headerGet h inbound with
      | some v => if v = "" then acc else dictSetA acc h v
      | none => acc) acc := by
  induction l generalizing acc with
  | nil => exact hin
  | cons h t ih =>
    simp only [List.foldl_cons]
    apply ih
    cases hg : headerGet h inbound with
    | none =>
      exact hin
    | some v =>
      dsimp only
      by_cases hv0 : v = ""
      · rw [if_pos hv0]
        exact hin
      · rw [if_neg hv0]
        by_cases hph : p.1 = h
        · have hveq : p.2 = v := by
            rw [hph] at hv
            rw [hv] at hg
            exact (Option.some.inj hg)
          have hpv : p = (h, v) := by
            cases p
            simp_all
          rw [hpv]
          exact mem_dictSetA_self acc h v
        · exact mem_dictSetA_of_ne hph hin

/-- Completeness of the inbound-header-collecting fold: every allow-listed
header present (with truthy value) on the inbound request ends up in the
dict. -/
theorem reqFold_complete (inbound : List (String × String)) (l : List String)
    (acc : List (String × String)) (p : String × String)
    (hin : p.1 ∈ l) (hv : headerGet p.1 inbound = some p.2) (hne : p.2 ≠ "") :
    p ∈ l.foldl (fun acc h =>
      match headerGet h inbound with
      | some v => if v = "" then acc else dictSetA acc h v
      | none => acc) acc := by
  induction l generalizing acc with
  | nil => cases hin
  | cons h t ih =>
    simp only [List.foldl_cons]
    rcases List.mem_cons.mp hin with h1 | h1
    · apply reqFold_preserve inbound t _ p ?_ hv
      rw [← h1, hv]
      dsimp only
      rw [if_neg hne]
      exact mem_dictSetA_self acc p.1 p.2
    · exact ih _ h1

/-- Soundness of the response-header-copying fold of `forward_request`. -/
theorem respFold_sound (uh : List (String × String)) (l : List String)
    (acc : List (String × String)) (p : String × String)
    (hp : p ∈ l.foldl (fun acc h =>
      match headerGet h uh with
      | some v => dictSetCI acc h v
      | none => acc) acc) :
    p ∈ acc ∨ ∃ h, h ∈ l ∧ p.1 = h ∧ headerGet h uh = some p.2 := by
  induction l generalizing acc with
  | nil => exact Or.inl hp
  | cons h t ih =>
    simp only [List.foldl_cons] at hp
    rcases ih _ hp with h1 | h1
    · cases hg : headerGet h uh with
      | none =>
        rw [hg] at h1
        exact Or.inl h1
      | some v =>
        rw [hg] at h1
        rcases mem_dictSetCI_elim h1 with h2 | h2
        · exact Or.inr ⟨h, List.mem_cons_self h t, h2.1, by rw [hg, h2.2]⟩
        · exact Or.inl h2
    · obtain ⟨h0, hh0, hp1, hg0⟩ := h1
      exact Or.inr ⟨h0, List.mem_cons_of_mem h hh0, hp1, hg0⟩

/-- C8: the upstream request's headers are exactly the allow-listed inbound
headers that are present (with truthy value) plus `X-Gateway-Source:
api-gateway`; and every header of the gateway response built from an
upstream response is one of the four allow-listed names, carrying either
the upstream's value or the constructor's default content type — no other
header crosses in either direction. -/
theorem forwarder_header_allowlists (allow : List String)
    (inbound uh : List (String × String))
    (hx : "X-Gateway-Source" ∉ allow) :
    (∀ p : String × String, p ∈ buildRequestHeaders allow inbound ↔
      ((p.1 = "X-Gateway-Source" ∧ p.2 = "api-gateway") ∨
       (p.1 ∈ allow ∧ headerGet p.1 inbound = some p.2 ∧ p.2 ≠ ""))) ∧
    (∀ p : String × String, p ∈ upstreamResponseHeaders uh →
      lowerAscii p.1 ∈ respHeaderNames.map lowerAscii ∧
      (headerGet p.1 uh = some p.2 ∨
       (p.1 = "Content-Type" ∧
        p.2 = (headerGet "Content-Type" uh).getD "application/json"))) := by
  constructor
  · intro p
    constructor
    · intro hp
      unfold buildRequestHeaders at hp
      rcases mem_dictSetA_elim hp with h1 | h1
      · exact Or.inl h1
      · rcases reqFold_sound inbound allow [] p h1 with h2 | h2
        · cases h2
        · exact Or.inr h2
    · intro hp
      unfold buildRequestHeaders
      rcases hp with ⟨h1, h2⟩ | ⟨h1, h2, h3⟩
      · have hpe : p = ("X-Gateway-Source", "api-gateway") := by
          cases p
          simp_all
        rw [hpe]
        exact mem_dictSetA_self _ _ _
      · have hne : p.1 ≠ "X-Gateway-Source" := fun e => hx (e ▸ h1)
        exact mem_dictSetA_of_ne hne (reqFold_complete inbound allow [] p h1 h2 h3)
  · intro p hp
    unfold upstreamResponseHeaders at hp
    rcases respFold_sound uh respHeaderNames _ p hp with h1 | h1
    · have hpe : p = ("Content-Type", (headerGet "Content-Type" uh).getD "application/json") := by
        simpa using h1
      constructor
      · rw [hpe]
        show lowerAscii "Content-Type" ∈ respHeaderNames.map lowerAscii
        decide
      · right
        rw [hpe]
        exact ⟨rfl, rfl⟩
    · obtain ⟨h0, hh0, hp1, hg⟩ := h1
      constructor
      · rw [hp1]
        exact List.mem_map_of_mem lowerAscii hh0
      · left
        rw [hp1, hg]

/-- C8 witness: the GET allow-list applied to an inbound request carrying
an allow-listed `Accept` and a non-allow-listed `Cookie`. -/
theorem forwarder_header_allowlists_w :
    "X-Gateway-Source" ∉ GET_FORWARD_HEADERS ∧
    (∀ p : String × String,
      p ∈ buildRequestHeaders GET_FORWARD_HEADERS
            [("Accept", "application/json"), ("Cookie", "secret")] ↔
      ((p.1 = "X-Gateway-Source" ∧ p.2 = "api-gateway") ∨
       (p.1 ∈ GET_FORWARD_HEADERS ∧
        headerGet p.1 [("Accept", "application/json"), ("Cookie", "secret")] = some p.2 ∧
        p.2 ≠ ""))) :=
  ⟨by decide,
   (forwarder_header_allowlists GET_FORWARD_HEADERS
      [("Accept", "application/json"), ("Cookie", "secret")] [] (by decide)).1⟩

end ApiGateway
